import Mathlib

/-!
Verification of the vscode-data-grid-example extension.

This file shallowly embeds the source of the extension:
`src/panels/HelloWorldPanel.ts` (panel controller, kernel code-runner,
code-template assembly, message bridge) and the webview renderer
(`App`, the unnamed React source file).  Asynchronous, stateful code is
embedded as explicit state passing; the kernel round-trip and UTF-8
decoding are abstract function parameters; JavaScript exceptions
(`JSON.parse` throwing, property access on `undefined`) are embedded as
early termination of the modelled sequence or as `Except.error`.
-/

namespace DataGrid

/-- A scalar cell value, the TS union `number | string` of
`DataFrameValues.data`.  Numbers are embedded as integers. -/
inductive CellValue where
  | num : Int → CellValue
  | str : String → CellValue
deriving DecidableEq

/-- One column descriptor of the schema result (TS `DataFrameColumns.columns`
element, HelloWorldPanel.ts lines 6-14). -/
structure ColumnDesc where
  key : String
  name : String
  type : String
deriving DecidableEq

/-- The parsed schema result (TS interface `DataFrameColumns`).  `rowCount`
is an integer so that `rowCount - 1` behaves as in JavaScript. -/
structure DataFrameColumns where
  columns : List ColumnDesc
  indexColumn : String
  rowCount : Int
deriving DecidableEq

/-- The parsed rows result (TS interface `DataFrameValues`, lines 16-20). -/
structure DataFrameValues where
  columns : List String
  index : List Int
  data : List (List CellValue)
deriving DecidableEq

/-- One mime-typed output chunk of a kernel execution
(`NotebookCellOutputItem`): a mime type and raw bytes. -/
structure OutputItem where
  mime : String
  data : List Nat
deriving DecidableEq

/-- The mime type `NotebookCellOutputItem.error(new Error('')).mime`
(HelloWorldPanel.ts line 30): the fixed error mime of the notebook API. -/
def ErrorMimeType : String := "application/vnd.code.notebook.error"

/-- The body of `_runCode`'s inner loop (lines 104-113): an error-mime chunk
is only logged (its payload is parsed and printed, contributing nothing),
any other chunk's decoded text is pushed onto `streamingOutput`.  `dec` is
the abstract UTF-8 decoder (`TextDecoder.decode`). -/
def runCodeStep (dec : List Nat → String) (acc : List String) (o : OutputItem) :
    List String :=
  if o.mime = ErrorMimeType then acc else acc ++ [dec o.data]

/-- `_runCode` (HelloWorldPanel.ts lines 98-120): iterate over the streamed
batches of output chunks, accumulate the decoded non-error chunks in order,
and join the accumulator with the empty separator.  The kernel stream is
embedded as the list of batches it yields. -/
def runCode (dec : List Nat → String) (outputs : List (List OutputItem)) : String :=
  String.join (outputs.foldl (fun acc batch => batch.foldl (runCodeStep dec) acc) [])

lemma runCodeStep_foldl (dec : List Nat → String) (batch : List OutputItem)
    (acc : List String) :
    batch.foldl (runCodeStep dec) acc
      = acc ++ (batch.filter (fun o => o.mime ≠ ErrorMimeType)).map
          (fun o => dec o.data) := by
  induction batch generalizing acc with
  | nil => simp
  | cons o rest ih =>
    by_cases h : o.mime = ErrorMimeType <;>
      simp [runCodeStep, h, ih, List.filter_cons, List.append_assoc]

lemma runCode_foldl (dec : List Nat → String) (outputs : List (List OutputItem))
    (acc : List String) :
    outputs.foldl (fun acc batch => batch.foldl (runCodeStep dec) acc) acc
      = acc ++ (outputs.flatten.filter (fun o => o.mime ≠ ErrorMimeType)).map
          (fun o => dec o.data) := by
  induction outputs generalizing acc with
  | nil => simp
  | cons b rest ih =>
    rw [List.foldl_cons, runCodeStep_foldl, ih]
    simp [List.filter_append, List.append_assoc]

/-- C1: for every kernel execution performed by `_runCode`, the returned
string is the in-order concatenation of the decodings of exactly the output
chunks whose mime type is not the kernel error mime type; if every chunk has
the error mime type, the result is the empty string. -/
theorem runCode_spec (dec : List Nat → String) (outputs : List (List OutputItem)) :
    runCode dec outputs
      = String.join ((outputs.flatten.filter (fun o => o.mime ≠ ErrorMimeType)).map
          (fun o => dec o.data)) ∧
    ((∀ o ∈ outputs.flatten, o.mime = ErrorMimeType) → runCode dec outputs = "") := by
  have key : runCode dec outputs
      = String.join ((outputs.flatten.filter (fun o => o.mime ≠ ErrorMimeType)).map
          (fun o => dec o.data)) := by
    unfold runCode
    rw [runCode_foldl, List.nil_append]
  refine ⟨key, fun h => ?_⟩
  have hfil : outputs.flatten.filter (fun o => o.mime ≠ ErrorMimeType) = [] := by
    simp only [List.filter_eq_nil_iff]
    intro o ho
    simp [h o ho]
  rw [key, hfil]
  rfl

/-- The fixed helper-function name (HelloWorldPanel.ts line 22). -/
def DataFrameFunc : String := "_VSCODE_getDataFrame"

/-- The fixed cleanup block (HelloWorldPanel.ts lines 23-28), a template
literal beginning and ending with a newline. -/
def cleanupCode : String := "\ntry:\n    del _VSCODE_getDataFrame\nexcept:\n    pass\n"

/-- `_generateCodeForDataFrameColumns` (lines 122-129).  The source reads the
fixed file `pythonFiles/vscodeDataFrame.py` (not part of this repository's
sources) and decodes it as UTF-8; `template` stands for those decoded
contents.  The variable name is interpolated into the call unchanged. -/
def generateCodeForDataFrameColumns (template variableName : String) : String :=
  let code := DataFrameFunc ++ "(\"info\", False, " ++ variableName ++ ")"
  template ++ "\n\n" ++ code ++ "\n\n" ++ cleanupCode

/-- `_generateCodeForDataFrameRows` (lines 131-138), with the start and end
indices rendered in decimal as JavaScript template interpolation does for
integral numbers. -/
def generateCodeForDataFrameRows (template variableName : String)
    (startIndex endIndex : Int) : String :=
  let code := DataFrameFunc ++ "(\"rows\", False, " ++ variableName ++ ", "
    ++ toString startIndex ++ ", " ++ toString endIndex ++ ")"
  template ++ "\n\n" ++ code ++ "\n\n" ++ cleanupCode

/-- C6: each generated execution payload is exactly the template file
contents, a blank-line separator, the single helper call in the requested
mode, another blank-line separator, and the fixed cleanup block; the
variable name appears in the call verbatim, with no escaping or validation
applied. -/
theorem generateCode_payload (template v : String) (s e : Int) :
    generateCodeForDataFrameColumns template v
      = template ++ "\n\n"
        ++ (DataFrameFunc ++ "(\"info\", False, " ++ v ++ ")")
        ++ "\n\n" ++ cleanupCode ∧
    generateCodeForDataFrameRows template v s e
      = template ++ "\n\n"
        ++ (DataFrameFunc ++ "(\"rows\", False, " ++ v ++ ", "
            ++ toString s ++ ", " ++ toString e ++ ")")
        ++ "\n\n" ++ cleanupCode :=
  ⟨rfl, rfl⟩

/-- The entry pushed into `_disposables` by the constructor's
`onDidDispose` registration (line 60). -/
def onDidDisposeListenerId : Nat := 0

/-- The entry pushed into `_disposables` when `_setWebviewMessageListener`
registers `onDidReceiveMessage` (lines 250-269). -/
def messageListenerId : Nat := 1

/-- The mutable state of one `HelloWorldPanel` instance: its `_disposables`
array (as registration ids), the `_columns` and `_values` fields, and
whether the webview's HTML and message listener have been set. -/
structure PanelState where
  disposables : List Nat
  columns : Option DataFrameColumns
  values : Option DataFrameValues
  webviewHtmlSet : Bool
  messageListenerSet : Bool
deriving DecidableEq

/-- The state a panel has right after the constructor's `onDidDispose`
registration, before any branch runs (lines 55-61). -/
def emptyPanelState : PanelState :=
  { disposables := [onDidDisposeListenerId], columns := none, values := none,
    webviewHtmlSet := false, messageListenerSet := false }

/-- `_initializeWebview` (lines 72-78): sets the webview HTML and registers
the message listener, which is pushed onto `_disposables`. -/
def initWebview (s : PanelState) : PanelState :=
  { s with webviewHtmlSet := true,
           messageListenerSet := true,
           disposables := s.disposables ++ [messageListenerId] }

/-- One observable action of the panel's construction sequence, in the
order it is performed. -/
inductive PanelEvent where
  | runReq : String → PanelEvent
  | storeColumns : DataFrameColumns → PanelEvent
  | storeValues : DataFrameValues → PanelEvent
  | webviewInit : PanelEvent
deriving DecidableEq

/-- `initialize` (HelloWorldPanel.ts lines 80-96), embedded as a function of
the resolved kernel handle (`getKernel`'s result), the kernel round-trip
`run` (what `_runCode` returns for a submitted payload), and the two
`JSON.parse` steps (`none` embeds a parse exception, which rejects the
promise so that nothing later in the body runs).  Returns the updated panel
state and the ordered trace of actions performed. -/
def fetchAndInit (template variableName : String) (kernel : Option Unit)
    (run : String → String)
    (parseSchema : String → Option DataFrameColumns)
    (parseValues : String → Option DataFrameValues)
    (s : PanelState) : PanelState × List PanelEvent :=
  match kernel with
  | none => (s, [])
  | some _ =>
    let code1 := generateCodeForDataFrameColumns template variableName
    match parseSchema (run code1) with
    | none => (s, [.runReq code1])
    | some value =>
      let s1 := { s with columns := some value }
      let code2 := generateCodeForDataFrameRows template variableName 0
        (value.rowCount - 1)
      match parseValues (run code2) with
      | none => (s1, [.runReq code1, .storeColumns value, .runReq code2])
      | some value2 =>
        let s2 := { s1 with values := some value2 }
        (initWebview s2,
         [.runReq code1, .storeColumns value, .runReq code2,
          .storeValues value2, .webviewInit])

/-- C2: in the data-fetch sequence, the schema request is issued and parsed
before the rows request is built; the rows request asks for the full range,
start 0 and end `rowCount - 1` with `rowCount` taken from the parsed schema
result; and the webview content is initialized only after both results are
stored, as the final action. -/
theorem fetchAndInit_schema_before_rows (template variableName : String)
    (run : String → String)
    (parseSchema : String → Option DataFrameColumns)
    (parseValues : String → Option DataFrameValues)
    (s : PanelState) (cols : DataFrameColumns) (vals : DataFrameValues)
    (h1 : parseSchema (run (generateCodeForDataFrameColumns template variableName))
            = some cols)
    (h2 : parseValues (run (generateCodeForDataFrameRows template variableName 0
            (cols.rowCount - 1))) = some vals) :
    fetchAndInit template variableName (some ()) run parseSchema parseValues s
      = ({ s with columns := some cols, values := some vals,
                  webviewHtmlSet := true, messageListenerSet := true,
                  disposables := s.disposables ++ [messageListenerId] },
         [.runReq (generateCodeForDataFrameColumns template variableName),
          .storeColumns cols,
          .runReq (generateCodeForDataFrameRows template variableName 0
            (cols.rowCount - 1)),
          .storeValues vals,
          .webviewInit]) := by
  simp [fetchAndInit, h1, h2, initWebview]

/-- Witness for C2: the fetch sequence evaluated at a concrete kernel and
concrete parse results (schema row count 3, so the rows request ends at 2). -/
theorem fetchAndInit_schema_before_rows_witness :
    fetchAndInit "T" "df" (some ()) (fun c => c)
        (fun _ => some ⟨[], "i", 3⟩) (fun _ => some ⟨[], [], []⟩)
        emptyPanelState
      = ({ disposables := [onDidDisposeListenerId, messageListenerId],
           columns := some ⟨[], "i", 3⟩, values := some ⟨[], [], []⟩,
           webviewHtmlSet := true, messageListenerSet := true },
         [.runReq (generateCodeForDataFrameColumns "T" "df"),
          .storeColumns ⟨[], "i", 3⟩,
          .runReq (generateCodeForDataFrameRows "T" "df" 0 ((3 : Int) - 1)),
          .storeValues ⟨[], [], []⟩,
          .webviewInit]) :=
  fetchAndInit_schema_before_rows "T" "df" (fun c => c)
    (fun _ => some ⟨[], "i", 3⟩) (fun _ => some ⟨[], [], []⟩)
    emptyPanelState ⟨[], "i", 3⟩ ⟨[], [], []⟩ rfl rfl

/-- JavaScript truthiness of the constructor's `variable` parameter
(`string | undefined`): `undefined` and the empty string are falsy. -/
def truthyVariable : Option String → Bool
  | none => false
  | some v => v != ""

/-- The private constructor (HelloWorldPanel.ts lines 55-70): it registers
the `onDidDispose` listener, then either starts the fetch sequence (when the
Jupyter API object, a truthy variable name and a notebook are all present)
or immediately initializes the webview. -/
def construct (template : String) (jupyterApiPresent : Bool)
    (variableName : Option String) (notebook kernel : Option Unit)
    (run : String → String)
    (parseSchema : String → Option DataFrameColumns)
    (parseValues : String → Option DataFrameValues) : PanelState × List PanelEvent :=
  if jupyterApiPresent && truthyVariable variableName && notebook.isSome then
    fetchAndInit template (variableName.getD "") kernel run parseSchema parseValues
      emptyPanelState
  else
    (initWebview emptyPanelState, [.webviewInit])

/-- The object the host posts as the `data` field of an `update` message.
Its `Option` fields record which properties the posted JS object actually
has: the stored `DataFrameValues` has `columns`, `index` and `data`, while
the literal fallback object in `_refresh` has `columns` and `rows`. -/
structure UpdateDataObj where
  columns : List String
  index : Option (List Int)
  data : Option (List (List CellValue))
  rows : Option (List (List CellValue))
deriving DecidableEq

/-- The `data` field `_refresh` posts (lines 271-279): `this._values`, or,
when no dataset has been fetched, the literal object whose properties are
`columns: []` and `rows: []`. -/
def refreshPayload : Option DataFrameValues → UpdateDataObj
  | some v => { columns := v.columns, index := some v.index,
                data := some v.data, rows := none }
  | none => { columns := [], index := none, data := none, rows := some [] }

/-- A full message posted by `_refresh`. -/
structure UpdateMessage where
  command : String
  data : UpdateDataObj
deriving DecidableEq

/-- The one message `_refresh` posts for the panel's current `_values`. -/
def refreshMessage (values : Option DataFrameValues) : UpdateMessage :=
  { command := "update", data := refreshPayload values }

/-- The webview message listener (`_setWebviewMessageListener`,
lines 250-269): the list of messages the host posts back for one incoming
message with the given `command` field; `refresh` and `connected` each
trigger one `_refresh` call, anything else falls through the switch. -/
def handleMessage (values : Option DataFrameValues) (command : String) :
    List UpdateMessage :=
  if command = "refresh" then [refreshMessage values]
  else if command = "connected" then [refreshMessage values]
  else []

/-- C3 (code evaluated at the failing input): with no fetched dataset, a
`connected` message and a `refresh` message get the identical single
`update` response, but its data object carries the properties
`columns: []` and `rows: []` — the `data` property required by the
protocol shape, an empty `data` array next to `columns`, is absent. -/
theorem handleMessage_fallback_rows_field :
    handleMessage none "connected" = handleMessage none "refresh" ∧
    handleMessage none "connected"
      = [{ command := "update",
           data := { columns := [], index := none, data := none,
                     rows := some [] } }] := by
  constructor <;> rfl

/-- The static `HelloWorldPanel.currentPanel` field. -/
structure ExtState where
  currentPanel : Option PanelState
deriving DecidableEq

/-- What one `render` call does besides updating `currentPanel`: reveal the
existing webview panel, or create (and construct) a new one. -/
inductive RenderAction where
  | reveal
  | create
deriving DecidableEq

/-- `render` (HelloWorldPanel.ts lines 146-171): if `currentPanel` exists it
is revealed and nothing else happens; otherwise a webview panel is created,
a new `HelloWorldPanel` (here `newPanel`) is constructed and stored. -/
def render (newPanel : PanelState) (s : ExtState) : ExtState × RenderAction :=
  match s.currentPanel with
  | some _ => (s, .reveal)
  | none => ({ currentPanel := some newPanel }, .create)

/-- The number of live panel instances the static state holds. -/
def livePanelCount (s : ExtState) : Nat :=
  match s.currentPanel with
  | some _ => 1
  | none => 0

/-- C5: when a panel instance already exists, `render` reveals it and
constructs nothing, leaving the state unchanged; after any `render` call
exactly one live panel instance exists; and a second `render` call in
succession only reveals, so two calls leave exactly one instance. -/
theorem render_singleton (p newPanel newPanel2 : PanelState) (s : ExtState) :
    (s.currentPanel = some p → render newPanel s = (s, .reveal)) ∧
    livePanelCount (render newPanel s).1 = 1 ∧
    render newPanel2 (render newPanel s).1 = ((render newPanel s).1, .reveal) ∧
    livePanelCount (render newPanel2 (render newPanel s).1).1 = 1 := by
  cases h : s.currentPanel <;>
    simp [render, livePanelCount, h]

/-- The `while` loop of `dispose` (lines 183-188): repeatedly pop the last
registered disposable and call its `dispose` method; returns the ordered
list of dispose calls, most recently registered first. -/
def drainDisposables : List Nat → List Nat
  | [] => []
  | d :: rest => drainDisposables rest ++ [d]

lemma drainDisposables_eq_reverse (l : List Nat) :
    drainDisposables l = l.reverse := by
  induction l with
  | nil => rfl
  | cons d rest ih => simp [drainDisposables, ih]

/-- Everything `dispose` leaves behind: the static state, the instance's
state, and the dispose calls it made. -/
structure DisposeResult where
  ext : ExtState
  panel : PanelState
  webviewPanelDisposed : Bool
  disposeCalls : List Nat
deriving DecidableEq

/-- `dispose` (HelloWorldPanel.ts lines 176-189): clears the static
`currentPanel`, disposes the webview panel itself, then drains
`_disposables`, calling `dispose` on every popped entry. -/
def disposePanel (p : PanelState) : DisposeResult :=
  { ext := { currentPanel := none },
    panel := { p with disposables := [] },
    webviewPanelDisposed := true,
    disposeCalls := drainDisposables p.disposables }

/-- C9: after `dispose`, the static `currentPanel` reference is cleared, the
instance's disposables list is empty, the dispose calls are exactly the
registered disposables (popped in reverse registration order), and so every
registered disposable — the message listener included — has had its
`dispose` method called. -/
theorem disposePanel_spec (p : PanelState) :
    (disposePanel p).ext.currentPanel = none ∧
    (disposePanel p).panel.disposables = [] ∧
    (disposePanel p).disposeCalls = p.disposables.reverse ∧
    ∀ d ∈ p.disposables, d ∈ (disposePanel p).disposeCalls := by
  refine ⟨rfl, rfl, drainDisposables_eq_reverse _, fun d hd => ?_⟩
  simp [disposePanel, drainDisposables_eq_reverse, hd]

/-- C7 counterexample: with the Jupyter API, a variable name and a notebook
all present but the kernel handle resolving to `undefined`, `initialize`
returns early — the constructed panel's webview HTML and message listener
are never initialized and no action at all is performed, instead of the
claimed empty-grid display. -/
theorem construct_kernel_absent_counterexample :
    (construct "T" true (some "df") (some ()) none (fun c => c)
        (fun _ => none) (fun _ => none)).1.webviewHtmlSet = false ∧
    (construct "T" true (some "df") (some ()) none (fun c => c)
        (fun _ => none) (fun _ => none)).1.messageListenerSet = false ∧
    (construct "T" true (some "df") (some ()) none (fun c => c)
        (fun _ => none) (fun _ => none)).2 = [] := by
  refine ⟨rfl, rfl, rfl⟩

/-- C7 as amended: when the Jupyter API object, a truthy variable name or
the notebook is absent at construction, the panel initializes its webview
HTML and message listener immediately, stores no dataset, and answers both
`connected` and `refresh` with the single fallback `update` message; but
when all three are present and the resolved kernel handle is absent, the
webview's HTML and message listener are never initialized. -/
theorem construct_fallback (template : String) (jup : Bool)
    (variableName : Option String) (notebook kernel : Option Unit)
    (run : String → String)
    (parseSchema : String → Option DataFrameColumns)
    (parseValues : String → Option DataFrameValues) :
    ((jup && truthyVariable variableName && notebook.isSome) = false →
      construct template jup variableName notebook kernel run parseSchema parseValues
          = (initWebview emptyPanelState, [.webviewInit]) ∧
        (initWebview emptyPanelState).webviewHtmlSet = true ∧
        (initWebview emptyPanelState).messageListenerSet = true ∧
        (initWebview emptyPanelState).values = none ∧
        handleMessage (initWebview emptyPanelState).values "connected"
          = [refreshMessage none] ∧
        handleMessage (initWebview emptyPanelState).values "refresh"
          = [refreshMessage none]) ∧
    ((jup && truthyVariable variableName && notebook.isSome) = true →
      kernel = none →
      (construct template jup variableName notebook kernel run parseSchema
          parseValues)
        = (emptyPanelState, []) ∧
      emptyPanelState.webviewHtmlSet = false ∧
      emptyPanelState.messageListenerSet = false) := by
  constructor
  · intro h
    refine ⟨?_, rfl, rfl, rfl, rfl, rfl⟩
    simp [construct, h]
  · intro h hk
    subst hk
    refine ⟨?_, rfl, rfl⟩
    simp [construct, h, fetchAndInit]

/-- A grid column as the renderer builds it: `title: c, width: 100`. -/
structure GridColumn where
  title : String
  width : Nat
deriving DecidableEq

/-- The renderer's state: the `gridColumns`, `data` and `rows` React states
of `App`. -/
structure GridState where
  gridColumns : List GridColumn
  data : List (List CellValue)
  rows : Nat
deriving DecidableEq

/-- The data object of an `update` message as the webview reads it:
`d.columns` and `d.data`. -/
structure UpdateMsgData where
  columns : List String
  data : List (List CellValue)
deriving DecidableEq

/-- The `update` branch of the webview's message handler (`App`,
lines 31-62): rebuilds the column list, backing array and row count from the
message, and computes the cell list passed to the one bulk
`updateCells` call — for each row index `i` and column index `j`, the
coordinate pair `(j, i)`. -/
def applyUpdate (s : GridState) (d : UpdateMsgData) : GridState × List (Nat × Nat) :=
  let cells := (List.range d.data.length).flatMap fun i =>
    (List.range d.columns.length).map fun j => (j, i)
  ({ s with gridColumns := d.columns.map fun c => { title := c, width := 100 },
            data := d.data,
            rows := d.data.length },
   cells)

lemma grid_cells_length (R C : Nat) :
    ((List.range R).flatMap fun i => (List.range C).map fun j => (j, i)).length
      = R * C := by
  induction R with
  | zero => simp
  | succ r ih => simp [List.range_succ, ih, Nat.succ_mul]

/-- C4: processing an update with `C` column names and `R` data rows yields
exactly `C` grid columns, each titled by the corresponding column name with
width 100, and exactly `R` rows; the bulk cell-invalidation call lists
exactly the `R * C` coordinates `(j, i)` with `j < C` and `i < R`; and the
empty update yields a zero-row, zero-column grid. -/
theorem applyUpdate_spec (s : GridState) (d : UpdateMsgData) :
    ((applyUpdate s d).1.gridColumns
        = d.columns.map (fun c => { title := c, width := 100 }) ∧
      (applyUpdate s d).1.gridColumns.length = d.columns.length ∧
      (applyUpdate s d).1.rows = d.data.length ∧
      (applyUpdate s d).1.data = d.data) ∧
    ((applyUpdate s d).2.length = d.data.length * d.columns.length ∧
      ∀ j i : Nat,
        ((j, i) ∈ (applyUpdate s d).2 ↔
          j < d.columns.length ∧ i < d.data.length)) ∧
    ((applyUpdate s ⟨[], []⟩).1.gridColumns = [] ∧
      (applyUpdate s ⟨[], []⟩).1.rows = 0) := by
  refine ⟨⟨rfl, by simp [applyUpdate], rfl, rfl⟩,
    ⟨grid_cells_length _ _, fun j i => ?_⟩, rfl, rfl⟩
  simp only [applyUpdate, List.mem_flatMap, List.mem_map, List.mem_range,
    Prod.mk.injEq]
  constructor
  · rintro ⟨a, ha, b, hb, hbj, hai⟩
    exact ⟨hbj ▸ hb, hai ▸ ha⟩
  · rintro ⟨hj, hi⟩
    exact ⟨i, hi, j, hj, rfl, rfl⟩

/-- C8: the renderer's state and invalidation list after two consecutive
updates equal those of processing only the second update from any starting
state — the second update fully replaces the first. -/
theorem applyUpdate_last_wins (s s0 : GridState) (m1 m2 : UpdateMsgData) :
    applyUpdate (applyUpdate s m1).1 m2 = applyUpdate s0 m2 := rfl

/-- JavaScript template-literal rendering of `val` in `getData`, where
`val` may be `undefined` (`none`): `undefined` renders as the string
`"undefined"`. -/
def jsTemplateString : Option CellValue → String
  | none => "undefined"
  | some (.num n) => toString n
  | some (.str s) => s

/-- A grid cell as `getData` returns it (`GridCellKind.Text`). -/
structure GridCell where
  kind : String
  data : String
  allowOverlay : Bool
  displayData : String
deriving DecidableEq

/-- `getData` (`App`, lines 66-76): `const person = data[row]` is
`undefined` for an out-of-range row, and `person[col]` on `undefined`
throws a TypeError, embedded as `Except.error`; for an existing row, a
missing `[col]` entry reads as `undefined` and is rendered by the template
literals. -/
def getData (data : List (List CellValue)) (col row : Nat) :
    Except String GridCell :=
  match data[row]? with
  | none => Except.error "TypeError"
  | some person =>
    Except.ok { kind := "text", data := jsTemplateString person[col]?,
                allowOverlay := false,
                displayData := jsTemplateString person[col]? }

/-- C10 counterexample: at the empty backing matrix the cell value at
position (0, 0) is missing, yet the lookup does not return a grid cell —
reading a column of the `undefined` row throws a TypeError. -/
theorem getData_missing_row_counterexample :
    getData ([] : List (List CellValue)) 0 0 = Except.error "TypeError" := rfl

/-- C10 as amended: when the row exists in the backing matrix but the cell
value at the requested column is missing, the lookup returns a grid cell
whose `data` and `displayData` are the string "undefined"; a lookup whose
entire row is missing instead throws a TypeError. -/
theorem getData_missing_cell (data : List (List CellValue)) (col row : Nat)
    (person : List CellValue)
    (h : data[row]? = some person) (hc : person[col]? = none) :
    getData data col row
      = Except.ok { kind := "text", data := "undefined",
                    allowOverlay := false, displayData := "undefined" } := by
  simp [getData, h, hc, jsTemplateString]

/-- Witness for the amended C10: row 0 of `[[]]` exists and has no column 0,
and the lookup renders the "undefined" cell. -/
theorem getData_missing_cell_witness :
    getData [([] : List CellValue)] 0 0
      = Except.ok { kind := "text", data := "undefined",
                    allowOverlay := false, displayData := "undefined" } :=
  getData_missing_cell [[]] 0 0 [] rfl rfl

end DataGrid
